import Mathlib

/-!
Verification of the two source adapters (arXiv and PubMed) of the
chat-plugin-arxiv gateway.  The handlers are embedded shallowly: the
parsed XML documents produced by fast-xml-parser are modelled as a
JavaScript-value tree `JS`, property access and method calls follow
JavaScript semantics (a thrown TypeError becomes `Except.error`), and
each handler becomes a pure function from the request method, the
decoded body and the parsed upstream responses to an HTTP result.
-/

/-- A JavaScript value as produced by fast-xml-parser: strings, numbers,
arrays, plain objects, and `undefined` for absent properties. -/
inductive JS where
  | undefined : JS
  | str : String → JS
  | num : Int → JS
  | arr : List JS → JS
  | obj : List (String × JS) → JS

/-- First-match field lookup in an object literal; absent keys read as
`undefined`, as in JavaScript. -/
def lookupField : List (String × JS) → String → JS
  | [], _ => .undefined
  | (k, v) :: rest, key => if k = key then v else lookupField rest key

/-- JavaScript property access `v.k`.  Reading a property of `undefined`
throws a TypeError; primitives expose `length` where JavaScript does. -/
def JS.get : JS → String → Except String JS
  | .undefined, k => .error ("Cannot read properties of undefined (reading " ++ k ++ ")")
  | .obj fs, k => .ok (lookupField fs k)
  | .arr xs, k => .ok (if k = "length" then .num xs.length else .undefined)
  | .str s, k => .ok (if k = "length" then .num s.length else .undefined)
  | .num _, _ => .ok .undefined

/-- JavaScript optional chaining `v?.k`: `undefined` receivers yield
`undefined` instead of throwing. -/
def JS.optGet : JS → String → JS
  | .undefined, _ => .undefined
  | .obj fs, k => lookupField fs k
  | .arr xs, k => if k = "length" then .num xs.length else .undefined
  | .str s, k => if k = "length" then .num s.length else .undefined
  | .num _, _ => .undefined

/-- JavaScript numeric indexing `v[i]`. -/
def JS.idx : JS → Nat → Except String JS
  | .undefined, i => .error ("Cannot read properties of undefined (reading " ++ toString i ++ ")")
  | .arr xs, i => .ok (match xs.get? i with | some v => v | none => .undefined)
  | .str s, i => .ok (match s.data.get? i with | some c => .str (String.mk [c]) | none => .undefined)
  | .obj fs, i => .ok (lookupField fs (toString i))
  | .num _, _ => .ok .undefined

/-- JavaScript truthiness. -/
def JS.truthy : JS → Bool
  | .undefined => false
  | .str s => !s.isEmpty
  | .num n => n != 0
  | .arr _ => true
  | .obj _ => true

/-- Strip leading and trailing whitespace from a character list. -/
def trimChars (cs : List Char) : List Char :=
  ((cs.dropWhile Char.isWhitespace).reverse.dropWhile Char.isWhitespace).reverse

/-- JavaScript `String.prototype.trim`. -/
def jsTrim (s : String) : String := String.mk (trimChars s.data)

/-- A call `v.trim()`: defined on strings only, otherwise a TypeError. -/
def JS.callTrim : JS → Except String String
  | .str s => .ok (jsTrim s)
  | _ => .error "trim is not a function"

/-- Join a list of strings with a separator, as `Array.prototype.join`
does once elements are strings. -/
def strJoin (sep : String) : List String → String
  | [] => ""
  | [a] => a
  | a :: rest => a ++ sep ++ strJoin sep rest

mutual

/-- JavaScript string conversion `String(v)` for the values the parser
produces. -/
def jsToString : JS → String
  | .undefined => "undefined"
  | .str s => s
  | .num n => toString n
  | .arr xs => strJoin "," (jsToStringList xs)
  | .obj _ => "[object Object]"

def jsToStringList : List JS → List String
  | [] => []
  | x :: xs => jsToString x :: jsToStringList xs

end

/-- Element conversion used by `Array.prototype.join`: `undefined`
renders as the empty string. -/
def joinElemStr : JS → String
  | .undefined => ""
  | v => jsToString v

/-- A call `v.join(sep)`: defined on arrays only. -/
def jsJoin (v : JS) (sep : String) : Except String String :=
  match v with
  | .arr xs => .ok (strJoin sep (xs.map joinElemStr))
  | _ => .error "join is not a function"

/-- Accumulate a maximal run of leading decimal digits. -/
def takeDigits : List Char → Nat → Nat
  | [], acc => acc
  | c :: cs, acc => if c.isDigit then takeDigits cs (acc * 10 + (c.toNat - 48)) else acc

/-- Value of the leading digit run, or `none` when the list does not
start with a digit. -/
def digitsVal : List Char → Option Nat
  | [] => none
  | c :: cs => if c.isDigit then some (takeDigits (c :: cs) 0) else none

/-- `parseInt` on an already trimmed character list: optional sign, then
leading digits; `none` models NaN. -/
def parseIntCore : List Char → Option Int
  | '-' :: cs => (digitsVal cs).map (fun n => -(n : Int))
  | '+' :: cs => (digitsVal cs).map (fun n => (n : Int))
  | cs => (digitsVal cs).map (fun n => (n : Int))

/-- `Number.parseInt(v, 10)` on a parsed XML value; `none` models NaN. -/
def jsParseInt : JS → Option Int
  | .str s => parseIntCore (trimChars s.data)
  | .num n => some n
  | _ => none

/-- Whole-string integer reading used by `Number(..)`. -/
def numFull : List Char → Option Int
  | [] => some 0
  | '-' :: cs => (digitsVal cs).map (fun n => -(n : Int))
  | cs => (digitsVal cs).map (fun n => (n : Int))

/-- `Number(v)` restricted to the value shapes the parser produces here
(strings and numbers); other shapes are modelled as NaN (`none`). -/
def jsToNumber : JS → Option Int
  | .num n => some n
  | .str s => numFull (trimChars s.data)
  | _ => none

/-- Truthiness of an optional numeric request field (`undefined` and `0`
are falsy in JavaScript). -/
def optTruthy : Option Int → Bool
  | none => false
  | some n => n != 0

/-- Template-literal rendering of an optional numeric request field. -/
def optValStr : Option Int → String
  | none => "undefined"
  | some n => toString n

/-- Error kinds of `createErrorResponse` used by both handlers. -/
inductive PluginErrorType where
  | methodNotAllowed
  | internalServerError
deriving DecidableEq

/-- Outcome of a handler: a successful response with its header list and
body, or an error envelope. -/
inductive HttpResult (α : Type) where
  | response (headers : List (String × String)) (body : α)
  | error (e : PluginErrorType) (message : Option String)

/-- Decoded JSON body of an arXiv search request, with the handler's
destructuring defaults. -/
structure ArxivRequestData where
  query : String
  maxResults : Int := 10
  searchField : String := "all"
  sortBy : String := "relevance"
  sortOrder : String := "descending"
  yearEnd : Option Int := none
  yearStart : Option Int := none

/-- Decoded JSON body of a PubMed search request, with the handler's
destructuring defaults. -/
structure PubMedRequestData where
  query : String
  maxResults : Int := 10
  sortBy : String := "relevance"
  yearEnd : Option Int := none
  yearStart : Option Int := none

/-- One normalized arXiv paper record. -/
structure ArxivPaper where
  authors : List JS
  categories : List JS
  doi : JS
  id : JS
  journalRef : JS
  pdfUrl : JS
  publishedDate : JS
  summary : String
  title : String
  updatedDate : JS

/-- Body of a successful arXiv response. -/
structure ArxivResponseData where
  nextCursor : Option String
  papers : List ArxivPaper
  totalResults : Option Int

/-- One normalized PubMed paper record. -/
structure PubMedPaper where
  abstract : JS
  authors : List String
  doi : JS
  journal : JS
  pmid : JS
  publishDate : JS
  title : JS

/-- Body of a successful PubMed response. -/
structure PubMedResponseData where
  papers : List PubMedPaper
  totalResults : Option Int

namespace Arxiv

/-- Minimum spacing between outbound arXiv calls (milliseconds). -/
def RATE_LIMIT : Nat := 3000

/-- Milliseconds the arXiv `rateLimit` sleeps, given the stored
`lastRequestTime` and the current `Date.now()` reading. -/
def waitTime (lastRequestTime now : Nat) : Nat :=
  let timeSinceLastRequest := now - lastRequestTime
  if timeSinceLastRequest < RATE_LIMIT then RATE_LIMIT - timeSinceLastRequest else 0

/-- The arXiv query translation: field switch plus optional
`submittedDate` clauses. -/
def searchQuery (req : ArxivRequestData) : String :=
  let base : String :=
    match req.searchField with
    | "title" => "ti:" ++ req.query
    | "author" => "au:" ++ req.query
    | "abstract" => "abs:" ++ req.query
    | _ => "all:" ++ req.query
  if optTruthy req.yearStart || optTruthy req.yearEnd then
    let dateQuery : List String :=
      (if optTruthy req.yearStart then
        ["submittedDate:[" ++ optValStr req.yearStart ++ "0101 TO 99991231]"] else [])
      ++ (if optTruthy req.yearEnd then
        ["submittedDate:[00000101 TO " ++ optValStr req.yearEnd ++ "1231]"] else [])
    if dateQuery.length > 0 then
      "(" ++ base ++ ") AND (" ++ strJoin " AND " dateQuery ++ ")"
    else base
  else base

/-- `Array.isArray(entry.author) ? entry.author.map(a => a.name) :
[entry.author.name]`. -/
def coerceAuthors (author : JS) : Except String (List JS) :=
  match author with
  | .arr xs => xs.mapM (fun a => a.get "name")
  | a => do
      let n ← a.get "name"
      pure [n]

/-- `Array.isArray(entry.category) ? entry.category.map(c => c.term) :
[entry.category.term]`. -/
def coerceCategories (category : JS) : Except String (List JS) :=
  match category with
  | .arr xs => xs.mapM (fun c => c.get "term")
  | c => do
      let t ← c.get "term"
      pure [t]

/-- `link.find(l => l.title === 'pdf')`. -/
def findPdf : List JS → Except String JS
  | [] => .ok .undefined
  | l :: rest => do
      let t ← l.get "title"
      if (match t with | .str s => s == "pdf" | _ => false) then pure l else findPdf rest

/-- Mapping of one arXiv feed entry to an `ArxivPaper`, in the object
literal's evaluation order. -/
def mapEntry (entry : JS) : Except String ArxivPaper := do
  let author ← entry.get "author"
  let authors ← coerceAuthors author
  let category ← entry.get "category"
  let categories ← coerceCategories category
  let doi ← entry.get "arxiv:doi"
  let id ← entry.get "id"
  let journalRef ← entry.get "arxiv:journal_ref"
  let link ← entry.get "link"
  let pdfLink ← match link with
    | .arr xs => findPdf xs
    | _ => .error "find is not a function"
  let pdfUrl ← pdfLink.get "href"
  let publishedDate ← entry.get "published"
  let summaryV ← entry.get "summary"
  let summary ← summaryV.callTrim
  let titleV ← entry.get "title"
  let title ← titleV.callTrim
  let updatedDate ← entry.get "updated"
  pure { authors, categories, doi, id, journalRef, pdfUrl,
         publishedDate, summary, title, updatedDate }

/-- `result.feed.entry || []`. -/
def getEntries (result : JS) : Except String JS := do
  let feed ← result.get "feed"
  let e ← feed.get "entry"
  pure (if e.truthy then e else .arr [])

/-- `entries.map(entry => ...)`: a TypeError when the feed collapsed a
single entry to a bare object. -/
def papers (result : JS) : Except String (List ArxivPaper) := do
  let entries ← getEntries result
  match entries with
  | .arr xs => xs.mapM mapEntry
  | _ => .error "map is not a function"

/-- `Number.parseInt(result.feed['opensearch:totalResults'][0], 10)`;
`none` models NaN. -/
def totalResults (result : JS) : Except String (Option Int) := do
  let feed ← result.get "feed"
  let counter ← feed.get "opensearch:totalResults"
  let c0 ← counter.idx 0
  pure (jsParseInt c0)

/-- The arXiv pipeline after the outbound call: normalize the parsed
feed and build the response envelope.  The translated query and URL are
computed before dispatch; the parsed feed `result` is the upstream
response. -/
def pipeline (req : ArxivRequestData) (result : JS) :
    Except String (HttpResult ArxivResponseData) := do
  let _searchQuery := searchQuery req
  let ps ← papers result
  let tot ← totalResults result
  pure (.response
    [("Cache-Control", "max-age=3600"), ("Content-Type", "application/json")]
    { nextCursor := if (ps.length : Int) = req.maxResults then some (toString req.maxResults) else none,
      papers := ps,
      totalResults := tot })

/-- The arXiv boundary handler: POST check, then the pipeline with its
catch-all. -/
def handler (method : String) (req : ArxivRequestData) (result : JS) :
    HttpResult ArxivResponseData :=
  if method ≠ "POST" then .error .methodNotAllowed none
  else match pipeline req result with
    | .ok r => r
    | .error m => .error .internalServerError (some m)

end Arxiv

/-- An outbound-dispatch event trace element: a pass through the rate
limiter, or an HTTP dispatch to the named endpoint. -/
inductive Ev where
  | rateGate : Ev
  | dispatch : String → Ev

/-- Every dispatch in a trace is immediately preceded by a rate-limiter
gate. -/
def gatedDispatches : List Ev → Bool
  | [] => true
  | Ev.rateGate :: Ev.dispatch _ :: rest => gatedDispatches rest
  | Ev.rateGate :: rest => gatedDispatches rest
  | Ev.dispatch _ :: _ => false

namespace Pubmed

/-- Minimum spacing between outbound PubMed calls (milliseconds). -/
def RATE_LIMIT : Nat := 100

/-- Milliseconds the PubMed `rateLimit` sleeps, given the stored
`lastRequestTime` and the current `Date.now()` reading. -/
def waitTime (lastRequestTime now : Nat) : Nat :=
  let timeSinceLastRequest := now - lastRequestTime
  if timeSinceLastRequest < RATE_LIMIT then RATE_LIMIT - timeSinceLastRequest else 0

/-- Order of rate-limiter gates and outbound dispatches in the PubMed
handler: `await rateLimit()` then the esearch call, and — unless the
empty-ID short circuit returns first — `await rateLimit()` then the
efetch call. -/
def fetchTrace (shortCircuit : Bool) : List Ev :=
  [Ev.rateGate, Ev.dispatch "esearch"]
    ++ (if shortCircuit then [] else [Ev.rateGate, Ev.dispatch "efetch"])

/-- The PubMed query translation: verbatim query, or wrapped with the
`[PDAT]` filter joined by the range separator. -/
def searchQuery (req : PubMedRequestData) : String :=
  if optTruthy req.yearStart || optTruthy req.yearEnd then
    let dateFilter : List String :=
      (if optTruthy req.yearStart then [optValStr req.yearStart ++ "[PDAT]"] else [])
      ++ (if optTruthy req.yearEnd then [optValStr req.yearEnd ++ "[PDAT]"] else [])
    "(" ++ req.query ++ ") AND (" ++ strJoin " : " dateFilter ++ ")"
  else req.query

/-- `searchResult.eSearchResult.IdList.Id`. -/
def getPmids (searchResult : JS) : Except String JS := do
  let esr ← searchResult.get "eSearchResult"
  let il ← esr.get "IdList"
  il.get "Id"

/-- The id parameter of the efetch call: `none` when `!pmids?.length`
short-circuits, otherwise `pmids.join(',')`. -/
def efetchIdParam (searchResult : JS) : Except String (Option String) := do
  let pmids ← getPmids searchResult
  if !(pmids.optGet "length").truthy then pure none
  else do
    let ids ← jsJoin pmids ","
    pure (some ids)

/-- `ELocationID.find(id => id.EIdType === 'doi')`. -/
def findEIdDoi : List JS → Except String JS
  | [] => .ok .undefined
  | x :: rest => do
      let t ← x.get "EIdType"
      if (match t with | .str s => s == "doi" | _ => false) then pure x else findEIdDoi rest

/-- One author display name: `${author.LastName || ''} ${author.ForeName || ''}`. -/
def authorName (author : JS) : Except String String := do
  let ln ← author.get "LastName"
  let fn ← author.get "ForeName"
  pure (jsToString (if ln.truthy then ln else .str "")
    ++ " " ++ jsToString (if fn.truthy then fn else .str ""))

/-- `Array.isArray(AuthorList.Author) ? Author.map(..) : [Author].map(..)`. -/
def coerceAuthors (authorV : JS) : Except String (List String) :=
  match authorV with
  | .arr xs => xs.mapM authorName
  | a => do
      let n ← authorName a
      pure [n]

/-- The DOI block of the PubMed mapper: array case via `find`, single
object case via the `EIdType` guard, initial value the empty string. -/
def extractDoi (articleData : JS) : Except String JS := do
  let eloc ← articleData.get "ELocationID"
  match eloc with
  | .arr xs => do
      let loc ← findEIdDoi xs
      let t := loc.optGet "_text"
      pure (if t.truthy then t else .str "")
  | e =>
      if (match e.optGet "EIdType" with | .str s => s == "doi" | _ => false) then do
        let t ← e.get "_text"
        pure (if t.truthy then t else .str "")
      else pure (.str "")

/-- Mapping of one PubmedArticle record to a `PubMedPaper`, in the
source's statement and object-literal evaluation order. -/
def mapArticle (article : JS) : Except String PubMedPaper := do
  let medline ← article.get "MedlineCitation"
  let articleData ← medline.get "Article"
  let doi ← extractDoi articleData
  let authorListV ← articleData.get "AuthorList"
  let authorV := authorListV.optGet "Author"
  let authors ← if authorV.truthy then coerceAuthors authorV else pure []
  let abstractO ← articleData.get "Abstract"
  let abText := abstractO.optGet "AbstractText"
  let abstract := if abText.truthy then abText else .str ""
  let journalV ← articleData.get "Journal"
  let journal ← journalV.get "Title"
  let pmid ← medline.get "PMID"
  let journalIssue ← journalV.get "JournalIssue"
  let pubDate ← journalIssue.get "PubDate"
  let publishDate ← pubDate.get "Year"
  let title ← articleData.get "ArticleTitle"
  pure { abstract, authors, doi, journal, pmid, publishDate, title }

/-- `fetchResult.PubmedArticleSet.PubmedArticle.map(article => ...)`: a
TypeError when a single article collapsed to a bare object. -/
def papers (fetchResult : JS) : Except String (List PubMedPaper) := do
  let pas ← fetchResult.get "PubmedArticleSet"
  let pa ← pas.get "PubmedArticle"
  match pa with
  | .arr xs => xs.mapM mapArticle
  | _ => .error "map is not a function"

/-- The PubMed pipeline after the esearch call: short-circuit on an
empty ID list, otherwise join the IDs for the efetch call and normalize
the parsed efetch response. -/
def pipeline (req : PubMedRequestData) (searchResult fetchResult : JS) :
    Except String (HttpResult PubMedResponseData) := do
  let _searchQuery := searchQuery req
  let pmids ← getPmids searchResult
  if !(pmids.optGet "length").truthy then
    pure (.response [("Content-Type", "application/json")]
      { papers := [], totalResults := some 0 })
  else do
    let _ids ← jsJoin pmids ","
    let ps ← papers fetchResult
    let esr ← searchResult.get "eSearchResult"
    let count ← esr.get "Count"
    pure (.response
      [("Cache-Control", "max-age=3600"), ("Content-Type", "application/json")]
      { papers := ps, totalResults := jsToNumber count })

/-- The PubMed boundary handler: POST check, then the pipeline with its
catch-all. -/
def handler (method : String) (req : PubMedRequestData) (searchResult fetchResult : JS) :
    HttpResult PubMedResponseData :=
  if method ≠ "POST" then .error .methodNotAllowed none
  else match pipeline req searchResult fetchResult with
    | .ok r => r
    | .error m => .error .internalServerError (some m)

end Pubmed

/-- Spec-side arXiv query translation, following the claim's words:
the field mapping concatenated with the query; when `yearStart` and/or
`yearEnd` are present (supplied at all), the conjunctive date clause
with open bounds widened to `00000101`/`99991231`. -/
def arxivQuerySpec (req : ArxivRequestData) : String :=
  let base : String :=
    match req.searchField with
    | "title" => "ti:" ++ req.query
    | "author" => "au:" ++ req.query
    | "abstract" => "abs:" ++ req.query
    | _ => "all:" ++ req.query
  let clauses : List String :=
    (match req.yearStart with
     | some ys => ["submittedDate:[" ++ toString ys ++ "0101 TO 99991231]"]
     | none => [])
    ++ (match req.yearEnd with
     | some ye => ["submittedDate:[00000101 TO " ++ toString ye ++ "1231]"]
     | none => [])
  match clauses with
  | [] => base
  | _ => "(" ++ base ++ ") AND (" ++ strJoin " AND " clauses ++ ")"

/-- Spec-side PubMed query translation, following the claim's words:
verbatim query without year bounds, else the `[PDAT]` range with the
range separator kept and an absent bound leaving its side empty. -/
def pubmedQuerySpec (req : PubMedRequestData) : String :=
  match req.yearStart, req.yearEnd with
  | none, none => req.query
  | some ys, some ye =>
      "(" ++ req.query ++ ") AND (" ++ toString ys ++ "[PDAT] : " ++ toString ye ++ "[PDAT])"
  | some ys, none =>
      "(" ++ req.query ++ ") AND (" ++ toString ys ++ "[PDAT] : )"
  | none, some ye =>
      "(" ++ req.query ++ ") AND ( : " ++ toString ye ++ "[PDAT])"

/-- Input builder: an arXiv feed document with the given `entry` value
and total-results counter value. -/
def mkFeed (entry counter : JS) : JS :=
  .obj [("feed", .obj [("entry", entry), ("opensearch:totalResults", counter)])]

/-- Input builder: one arXiv entry object with the given field values. -/
def mkEntry (author category doi id journalRef link published summary title updated : JS) : JS :=
  .obj [("author", author), ("category", category), ("arxiv:doi", doi), ("id", id),
        ("arxiv:journal_ref", journalRef), ("link", link), ("published", published),
        ("summary", summary), ("title", title), ("updated", updated)]

/-- Input builder: an esearch response document with the given
`IdList.Id` value and `Count` value. -/
def mkSearchResult (idv count : JS) : JS :=
  .obj [("eSearchResult", .obj [("Count", count), ("IdList", .obj [("Id", idv)])])]

/-- Input builder: one PubmedArticle record with the given field
values. -/
def mkArticle (pmid elocationId authorV abstractText journalTitle pubYear articleTitle : JS) : JS :=
  .obj [("MedlineCitation", .obj
    [("PMID", pmid),
     ("Article", .obj
       [("ELocationID", elocationId),
        ("AuthorList", .obj [("Author", authorV)]),
        ("Abstract", .obj [("AbstractText", abstractText)]),
        ("Journal", .obj
          [("Title", journalTitle),
           ("JournalIssue", .obj [("PubDate", .obj [("Year", pubYear)])])]),
        ("ArticleTitle", articleTitle)])])]

/-- A link list holding one alternate link and one pdf-titled link. -/
def pdfLinks : JS :=
  .arr [.obj [("title", .str "abs"), ("href", .str "http://arxiv.org/abs/1")],
        .obj [("title", .str "pdf"), ("href", .str "http://arxiv.org/pdf/1")]]

/-- A sample arXiv entry with one author, one category and a pdf link. -/
def sampleEntry : JS :=
  mkEntry (.obj [("name", .str "Alice")]) (.obj [("term", .str "cs.AI")])
    (.str "10.1/x") (.str "http://arxiv.org/abs/1") (.str "J. Ref") pdfLinks
    (.str "2020-01-01") (.str " sum ") (.str " ti ") (.str "2020-01-02")

/-- The normalized record of `sampleEntry`. -/
def samplePaper : ArxivPaper :=
  { authors := [.str "Alice"], categories := [.str "cs.AI"], doi := .str "10.1/x",
    id := .str "http://arxiv.org/abs/1", journalRef := .str "J. Ref",
    pdfUrl := .str "http://arxiv.org/pdf/1", publishedDate := .str "2020-01-01",
    summary := "sum", title := "ti", updatedDate := .str "2020-01-02" }

/-- A sample PubmedArticle record with one author and a doi location. -/
def sampleArticle : JS :=
  mkArticle (.num 12345) (.obj [("EIdType", .str "doi"), ("_text", .str "10.1/y")])
    (.obj [("LastName", .str "Smith"), ("ForeName", .str "Jane")])
    (.str "An abstract") (.str "A Journal") (.num 2021) (.str "A Title")

/-- The normalized record of `sampleArticle`. -/
def samplePmPaper : PubMedPaper :=
  { abstract := .str "An abstract", authors := ["Smith Jane"], doi := .str "10.1/y",
    journal := .str "A Journal", pmid := .num 12345, publishDate := .num 2021,
    title := .str "A Title" }

/-- An esearch response with an empty `IdList` (parsed as an empty
string) and count zero. -/
def srEmpty : JS :=
  .obj [("eSearchResult", .obj [("Count", .num 0), ("IdList", .str "")])]

/-- An esearch response with an empty `IdList` but a nonzero `Count`. -/
def srMismatch : JS :=
  .obj [("eSearchResult", .obj [("Count", .num 5), ("IdList", .str "")])]

theorem exceptBind_ok {α β : Type} (a : α) (f : α → Except String β) :
    (Except.ok a >>= f : Except String β) = f a := rfl

theorem exceptBind_error {α β : Type} (m : String) (f : α → Except String β) :
    (Except.error m >>= f : Except String β) = Except.error m := rfl

theorem exceptPure {α : Type} (a : α) : (pure a : Except String α) = .ok a := rfl

/-- C1 (amended): the per-field repeats — arXiv authors and categories,
PubMed author lists — are checked for array-vs-single-object shape, so a
single-author and a multi-author document both yield an ordered
sequence; but the arXiv entry list, the PubMed article-record list and
the PubMed ID list are not coerced: a feed whose single entry collapsed
to a bare object makes the arXiv mapping throw, a single collapsed
PubmedArticle makes the PubMed mapping throw, and a single collapsed
numeric ID makes the handler treat the ID list as empty. -/
theorem arrayCoercion_amended :
    (∀ fs : List (String × JS),
      Arxiv.coerceAuthors (.obj fs) = .ok [lookupField fs "name"])
    ∧ (∀ fs1 fs2 : List (String × JS),
      Arxiv.coerceAuthors (.arr [.obj fs1, .obj fs2]) =
        .ok [lookupField fs1 "name", lookupField fs2 "name"])
    ∧ (∀ fs : List (String × JS),
      Arxiv.coerceCategories (.obj fs) = .ok [lookupField fs "term"])
    ∧ (∀ fs : List (String × JS),
      Pubmed.coerceAuthors (.obj fs) =
        .ok [jsToString
              (if (lookupField fs "LastName").truthy then lookupField fs "LastName" else .str "")
            ++ " " ++ jsToString
              (if (lookupField fs "ForeName").truthy then lookupField fs "ForeName" else .str "")])
    ∧ (∀ (fs : List (String × JS)) (cnt : JS),
      Arxiv.papers (mkFeed (.obj fs) cnt) = .error "map is not a function")
    ∧ (∀ fs : List (String × JS),
      Pubmed.papers (.obj [("PubmedArticleSet", .obj [("PubmedArticle", .obj fs)])]) =
        .error "map is not a function")
    ∧ (∀ (n : Int) (cnt : JS),
      Pubmed.efetchIdParam (mkSearchResult (.num n) cnt) = .ok none) :=
  ⟨fun _ => rfl, fun _ _ => rfl, fun _ => rfl, fun _ => rfl,
   fun _ _ => rfl, fun _ => rfl, fun _ _ => rfl⟩

/-- C1 counterexample: a feed whose single entry collapsed to a bare
object makes the normalization throw, while the very same entry wrapped
in an array maps fine; the same holds for a collapsed PubmedArticle. -/
theorem arrayCoercion_single_entry_cex :
    Arxiv.papers (mkFeed sampleEntry (.arr [.str "1"])) = .error "map is not a function"
    ∧ Arxiv.papers (mkFeed (.arr [sampleEntry]) (.arr [.str "1"])) = .ok [samplePaper]
    ∧ Pubmed.papers (.obj [("PubmedArticleSet", .obj [("PubmedArticle", sampleArticle)])]) =
        .error "map is not a function"
    ∧ Pubmed.papers (.obj [("PubmedArticleSet", .obj [("PubmedArticle", .arr [sampleArticle])])]) =
        .ok [samplePmPaper] :=
  ⟨rfl, rfl, rfl, rfl⟩

/-- C2 (amended): for every request whose year bounds are not the
(falsy) literal 0, the arXiv query translation agrees with the spec's
description: field mapping, widest-date defaulting of open bounds, and
the conjunctive final form. -/
theorem arxivQuery_matches_spec (req : ArxivRequestData)
    (hs : req.yearStart ≠ some 0) (he : req.yearEnd ≠ some 0) :
    Arxiv.searchQuery req = arxivQuerySpec req := by
  rcases req with ⟨q, mr, sf, sb, so, ye, ys⟩
  rcases ys with _ | ys <;> rcases ye with _ | ye <;>
    simp_all [Arxiv.searchQuery, arxivQuerySpec, optTruthy, optValStr, strJoin]

/-- C2 witness: the code and spec translations agree at a concrete
two-sided year range. -/
theorem arxivQuery_matches_spec_witness :
    Arxiv.searchQuery { query := "quantum", yearStart := some 2020, yearEnd := some 2021 } =
      arxivQuerySpec { query := "quantum", yearStart := some 2020, yearEnd := some 2021 } :=
  arxivQuery_matches_spec _ (by decide) (by decide)

/-- C2 counterexample: `yearStart = 0` is present but falsy, so the code
appends no date clause while the claim's reading appends one. -/
theorem arxivQuery_zero_year_cex :
    Arxiv.searchQuery { query := "q", yearStart := some 0 } = "all:q"
    ∧ arxivQuerySpec { query := "q", yearStart := some 0 } =
        "(all:q) AND (submittedDate:[00101 TO 99991231])"
    ∧ Arxiv.searchQuery { query := "q", yearStart := some 0 } ≠
        arxivQuerySpec { query := "q", yearStart := some 0 } :=
  ⟨by decide, by decide, by decide⟩

/-- C3 (amended): for every request whose year bounds are not the
(falsy) literal 0, the PubMed translation is the raw query when no bound
is present, the full `[PDAT]` range when both are, and — when exactly
one bound is present — that single `[PDAT]` term with no range separator
at all. -/
theorem pubmedQuery_amended (req : PubMedRequestData)
    (hs : req.yearStart ≠ some 0) (he : req.yearEnd ≠ some 0) :
    Pubmed.searchQuery req =
      match req.yearStart, req.yearEnd with
      | none, none => req.query
      | some ys, none => "(" ++ req.query ++ ") AND (" ++ toString ys ++ "[PDAT])"
      | none, some ye => "(" ++ req.query ++ ") AND (" ++ toString ye ++ "[PDAT])"
      | some ys, some ye =>
          "(" ++ req.query ++ ") AND (" ++ toString ys ++ "[PDAT] : "
            ++ toString ye ++ "[PDAT])" := by
  rcases req with ⟨q, mr, sb, ye, ys⟩
  rcases ys with _ | ys <;> rcases ye with _ | ye <;>
    simp_all [Pubmed.searchQuery, optTruthy, optValStr, strJoin, String.append_assoc]

/-- C3 witness: the translation at a concrete two-sided year range. -/
theorem pubmedQuery_amended_witness :
    Pubmed.searchQuery { query := "cancer", yearStart := some 2019, yearEnd := some 2021 } =
      "(cancer) AND (2019[PDAT] : 2021[PDAT])" := by
  rw [pubmedQuery_amended { query := "cancer", yearStart := some 2019, yearEnd := some 2021 }
    (by decide) (by decide)]
  rfl

/-- C3 counterexample: with `yearStart` only, the produced clause is the
single term with no range separator, not a range with an empty
right-hand side. -/
theorem pubmedQuery_one_sided_cex :
    Pubmed.searchQuery { query := "q", yearStart := some 2020 } = "(q) AND (2020[PDAT])"
    ∧ Pubmed.searchQuery { query := "q", yearStart := some 2020 } ≠ "(q) AND (2020[PDAT] : )"
    ∧ pubmedQuerySpec { query := "q", yearStart := some 2020 } = "(q) AND (2020[PDAT] : )" :=
  ⟨by decide, by decide, by decide⟩

/-- C4: when the second clock reading is at least the first plus the
computed sleep, a granted slot lies at least `RATE_LIMIT` milliseconds
(3000 for arXiv, 100 for PubMed) after the previously recorded slot; and
in the PubMed handler both the esearch and the efetch dispatches are
immediately preceded by a rate-limiter gate. -/
theorem rateLimit_min_spacing (lastRequestTime now now2 : Nat)
    (h0 : lastRequestTime ≤ now) :
    (now + Arxiv.waitTime lastRequestTime now ≤ now2 →
      lastRequestTime + Arxiv.RATE_LIMIT ≤ now2)
    ∧ (now + Pubmed.waitTime lastRequestTime now ≤ now2 →
      lastRequestTime + Pubmed.RATE_LIMIT ≤ now2)
    ∧ gatedDispatches (Pubmed.fetchTrace true) = true
    ∧ gatedDispatches (Pubmed.fetchTrace false) = true := by
  refine ⟨?_, ?_, by decide, by decide⟩
  · intro h
    simp only [Arxiv.waitTime, Arxiv.RATE_LIMIT] at h ⊢
    split at h <;> omega
  · intro h
    simp only [Pubmed.waitTime, Pubmed.RATE_LIMIT] at h ⊢
    split at h <;> omega

/-- C4 witness: back-to-back calls starting from a grant at time 0 are
spaced by the full interval. -/
theorem rateLimit_min_spacing_witness :
    0 + Arxiv.RATE_LIMIT ≤ 3000 ∧ 0 + Pubmed.RATE_LIMIT ≤ 3000
    ∧ gatedDispatches (Pubmed.fetchTrace false) = true :=
  ⟨(rateLimit_min_spacing 0 0 3000 (by decide)).1 (by decide),
   (rateLimit_min_spacing 0 0 3000 (by decide)).2.1 (by decide),
   (rateLimit_min_spacing 0 0 3000 (by decide)).2.2.2⟩

/-- C5 (amended): an absent or empty-array ID list short-circuits to the
empty envelope without an efetch call; an ID list parsed as a non-empty
array yields an efetch call keyed by the comma-joined IDs; but a
response with exactly one record identifier, collapsed by the parser to
a bare number, also short-circuits as empty instead of fetching. -/
theorem pubmed_id_shortcircuit_amended :
    (∀ (req : PubMedRequestData) (cnt fr : JS),
      Pubmed.pipeline req (mkSearchResult .undefined cnt) fr =
        .ok (.response [("Content-Type", "application/json")]
          { papers := [], totalResults := some 0 })
      ∧ Pubmed.efetchIdParam (mkSearchResult .undefined cnt) = .ok none)
    ∧ (∀ (req : PubMedRequestData) (cnt fr : JS),
      Pubmed.pipeline req (mkSearchResult (.arr []) cnt) fr =
        .ok (.response [("Content-Type", "application/json")]
          { papers := [], totalResults := some 0 })
      ∧ Pubmed.efetchIdParam (mkSearchResult (.arr []) cnt) = .ok none)
    ∧ (∀ (x : JS) (xs : List JS) (cnt : JS),
      Pubmed.efetchIdParam (mkSearchResult (.arr (x :: xs)) cnt) =
        .ok (some (strJoin "," ((x :: xs).map joinElemStr))))
    ∧ (∀ (n : Int) (cnt : JS),
      Pubmed.efetchIdParam (mkSearchResult (.num n) cnt) = .ok none) :=
  ⟨fun _ _ _ => ⟨rfl, rfl⟩, fun _ _ _ => ⟨rfl, rfl⟩, fun _ _ _ => rfl, fun _ _ => rfl⟩

/-- C5 counterexample: with exactly one (numeric) record identifier the
handler issues no efetch call and returns the empty envelope, instead of
fetching the comma-joined ID list. -/
theorem pubmed_single_id_cex :
    Pubmed.efetchIdParam (mkSearchResult (.num 12345) (.num 1)) = .ok none
    ∧ Pubmed.pipeline { query := "q" } (mkSearchResult (.num 12345) (.num 1)) .undefined =
        .ok (.response [("Content-Type", "application/json")]
          { papers := [], totalResults := some 0 })
    ∧ Pubmed.efetchIdParam (mkSearchResult (.num 12345) (.num 1)) ≠ .ok (some "12345") := by
  refine ⟨rfl, rfl, ?_⟩
  rw [show Pubmed.efetchIdParam (mkSearchResult (.num 12345) (.num 1)) = .ok none from rfl]
  simp

/-- C6 (amended): on the main path, a successful response carries
`totalResults` equal to the source's counter converted to an integer —
for arXiv `parseInt` of element 0 of the one-element wrapper around
`opensearch:totalResults`, for PubMed `Number` of `eSearchResult.Count`
— while the PubMed empty-ID short circuit instead returns the literal
count 0 with an empty paper list. -/
theorem totalResults_amended :
    (∀ (req : ArxivRequestData) (e v : JS) (hs : List (String × String))
        (d : ArxivResponseData),
      Arxiv.pipeline req (mkFeed e (.arr [v])) = .ok (.response hs d) →
        d.totalResults = jsParseInt v)
    ∧ (∀ (req : PubMedRequestData) (idv cnt fr : JS) (hs : List (String × String))
        (d : PubMedResponseData),
      Pubmed.pipeline req (mkSearchResult idv cnt) fr = .ok (.response hs d) →
        d.totalResults = jsToNumber cnt ∨ (d.papers = [] ∧ d.totalResults = some 0)) := by
  constructor
  · intro req e v hs d h
    unfold Arxiv.pipeline at h
    cases hp : Arxiv.papers (mkFeed e (.arr [v])) with
    | error m =>
        rw [hp, exceptBind_error] at h
        exact Except.noConfusion h
    | ok ps =>
        rw [hp, exceptBind_ok] at h
        have ht : Arxiv.totalResults (mkFeed e (.arr [v])) = .ok (jsParseInt v) := rfl
        rw [ht, exceptBind_ok, exceptPure] at h
        simp only [Except.ok.injEq, HttpResult.response.injEq] at h
        rw [← h.2]
  · intro req idv cnt fr hs d h
    unfold Pubmed.pipeline at h
    have hg : Pubmed.getPmids (mkSearchResult idv cnt) = .ok idv := rfl
    rw [hg, exceptBind_ok] at h
    split at h
    · rw [exceptPure] at h
      simp only [Except.ok.injEq, HttpResult.response.injEq] at h
      right
      rw [← h.2]
      exact ⟨rfl, rfl⟩
    · cases hj : jsJoin idv "," with
      | error m => rw [hj, exceptBind_error] at h; exact Except.noConfusion h
      | ok ids =>
          rw [hj, exceptBind_ok] at h
          cases hp : Pubmed.papers fr with
          | error m => rw [hp, exceptBind_error] at h; exact Except.noConfusion h
          | ok ps =>
              rw [hp, exceptBind_ok] at h
              have h1 : (mkSearchResult idv cnt).get "eSearchResult" =
                  Except.ok (JS.obj [("Count", cnt), ("IdList", JS.obj [("Id", idv)])]) := rfl
              rw [h1, exceptBind_ok] at h
              have h2 : (JS.obj [("Count", cnt), ("IdList", JS.obj [("Id", idv)])]).get "Count" =
                  Except.ok cnt := rfl
              rw [h2, exceptBind_ok, exceptPure] at h
              simp only [Except.ok.injEq, HttpResult.response.injEq] at h
              left
              rw [← h.2]

/-- C6 witness: a successful arXiv response whose one-element counter
wrapper holds the string 57 reports 57 total results. -/
theorem totalResults_amended_witness :
    ({ nextCursor := none, papers := [samplePaper], totalResults := some 57 }
        : ArxivResponseData).totalResults = jsParseInt (.str "57") :=
  totalResults_amended.1 { query := "q" } (.arr [sampleEntry]) (.str "57")
    [("Cache-Control", "max-age=3600"), ("Content-Type", "application/json")]
    { nextCursor := none, papers := [samplePaper], totalResults := some 57 } rfl

/-- C6 counterexample: a successful short-circuit response reports 0
total results even though the counter field holds 5. -/
theorem totalResults_shortcircuit_cex :
    Pubmed.pipeline { query := "q" } srMismatch .undefined =
      .ok (.response [("Content-Type", "application/json")]
        { papers := [], totalResults := some 0 })
    ∧ jsToNumber (.num 5) = some 5
    ∧ (some 0 : Option Int) ≠ some 5 :=
  ⟨rfl, rfl, by decide⟩

/-- C7 (amended): the arXiv mapper trims the title and the summary and
passes the published and updated dates through unparsed; the PubMed
mapper passes the title, the abstract and the publication year through
untrimmed and unparsed. -/
theorem trimming_amended :
    (∀ (s t : String) (pub upd : JS),
      Arxiv.mapEntry (mkEntry (.obj [("name", .str "A")]) (.obj [("term", .str "c")])
          (.str "d") (.str "i") (.str "j") pdfLinks pub (.str s) (.str t) upd) =
        .ok { authors := [.str "A"], categories := [.str "c"], doi := .str "d",
              id := .str "i", journalRef := .str "j",
              pdfUrl := .str "http://arxiv.org/pdf/1", publishedDate := pub,
              summary := jsTrim s, title := jsTrim t, updatedDate := upd })
    ∧ (∀ (t ab : String) (y : JS),
      Pubmed.mapArticle (mkArticle (.num 1) (.arr [])
          (.obj [("LastName", .str "S"), ("ForeName", .str "J")])
          (.str ab) (.str "Jr") y (.str t)) =
        .ok { abstract := if (JS.str ab).truthy then .str ab else .str "",
              authors := ["S J"], doi := .str "", journal := .str "Jr",
              pmid := .num 1, publishDate := y, title := .str t }) :=
  ⟨fun _ _ _ _ => rfl, fun _ _ _ => rfl⟩

/-- C7 counterexample: a PubMed article whose title and abstract carry
surrounding whitespace is normalized with both fields untrimmed. -/
theorem pubmed_untrimmed_cex :
    Pubmed.mapArticle (mkArticle (.num 1) (.arr [])
        (.obj [("LastName", .str "S"), ("ForeName", .str "J")])
        (.str " a ") (.str "Jr") (.num 2021) (.str " X ")) =
      .ok { abstract := .str " a ", authors := ["S J"], doi := .str "",
            journal := .str "Jr", pmid := .num 1, publishDate := .num 2021,
            title := .str " X " }
    ∧ jsTrim " X " ≠ " X " ∧ jsTrim " a " ≠ " a " :=
  ⟨rfl, by decide, by decide⟩

/-- C8 (amended): every successful arXiv response, and every successful
main-path PubMed response, carries both `Cache-Control: max-age=3600`
and `Content-Type: application/json`; the PubMed empty-ID short-circuit
response carries only `Content-Type`. -/
theorem headers_amended :
    (∀ (req : ArxivRequestData) (result : JS) (hs : List (String × String))
        (d : ArxivResponseData),
      Arxiv.pipeline req result = .ok (.response hs d) →
        hs = [("Cache-Control", "max-age=3600"), ("Content-Type", "application/json")])
    ∧ (∀ (req : PubMedRequestData) (sr fr : JS) (hs : List (String × String))
        (d : PubMedResponseData),
      Pubmed.pipeline req sr fr = .ok (.response hs d) →
        hs = [("Cache-Control", "max-age=3600"), ("Content-Type", "application/json")]
        ∨ (hs = [("Content-Type", "application/json")]
            ∧ d.papers = [] ∧ d.totalResults = some 0)) := by
  constructor
  · intro req result hs d h
    unfold Arxiv.pipeline at h
    cases hp : Arxiv.papers result with
    | error m => rw [hp, exceptBind_error] at h; exact Except.noConfusion h
    | ok ps =>
        rw [hp, exceptBind_ok] at h
        cases ht : Arxiv.totalResults result with
        | error m => rw [ht, exceptBind_error] at h; exact Except.noConfusion h
        | ok tot =>
            rw [ht, exceptBind_ok, exceptPure] at h
            simp only [Except.ok.injEq, HttpResult.response.injEq] at h
            exact h.1.symm
  · intro req sr fr hs d h
    unfold Pubmed.pipeline at h
    cases hg : Pubmed.getPmids sr with
    | error m => rw [hg, exceptBind_error] at h; exact Except.noConfusion h
    | ok pmids =>
        rw [hg, exceptBind_ok] at h
        split at h
        · rw [exceptPure] at h
          simp only [Except.ok.injEq, HttpResult.response.injEq] at h
          right
          refine ⟨h.1.symm, ?_, ?_⟩ <;> rw [← h.2]
        · cases hj : jsJoin pmids "," with
          | error m => rw [hj, exceptBind_error] at h; exact Except.noConfusion h
          | ok ids =>
              rw [hj, exceptBind_ok] at h
              cases hp : Pubmed.papers fr with
              | error m => rw [hp, exceptBind_error] at h; exact Except.noConfusion h
              | ok ps =>
                  rw [hp, exceptBind_ok] at h
                  cases he : sr.get "eSearchResult" with
                  | error m => rw [he, exceptBind_error] at h; exact Except.noConfusion h
                  | ok esr =>
                      rw [he, exceptBind_ok] at h
                      cases hc : esr.get "Count" with
                      | error m => rw [hc, exceptBind_error] at h; exact Except.noConfusion h
                      | ok cnt =>
                          rw [hc, exceptBind_ok, exceptPure] at h
                          simp only [Except.ok.injEq, HttpResult.response.injEq] at h
                          exact Or.inl h.1.symm

/-- C8 witness: a successful arXiv response carries both headers, and a
PubMed short-circuit response satisfies the short-circuit disjunct. -/
theorem headers_amended_witness :
    ([("Cache-Control", "max-age=3600"), ("Content-Type", "application/json")]
        : List (String × String)) =
      [("Cache-Control", "max-age=3600"), ("Content-Type", "application/json")]
    ∧ (([("Content-Type", "application/json")] : List (String × String)) =
        [("Cache-Control", "max-age=3600"), ("Content-Type", "application/json")]
      ∨ (([("Content-Type", "application/json")] : List (String × String)) =
          [("Content-Type", "application/json")]
        ∧ ({ papers := [], totalResults := some 0 } : PubMedResponseData).papers = []
        ∧ ({ papers := [], totalResults := some 0 } : PubMedResponseData).totalResults
            = some 0)) :=
  ⟨headers_amended.1 { query := "q" } (mkFeed (.arr [sampleEntry]) (.arr [.str "57"]))
      _ _ rfl,
   headers_amended.2 { query := "q" } srEmpty .undefined _ _ rfl⟩

/-- C8 counterexample: the empty-ID short-circuit success response does
not carry the `Cache-Control` header. -/
theorem headers_shortcircuit_cex :
    Pubmed.handler "POST" { query := "q" } srEmpty .undefined =
      .response [("Content-Type", "application/json")] { papers := [], totalResults := some 0 }
    ∧ ("Cache-Control", "max-age=3600") ∉
        ([("Content-Type", "application/json")] : List (String × String)) :=
  ⟨rfl, by decide⟩

/-- C9: a non-POST request yields the method-not-allowed envelope with
no pipeline work (the outcome is independent of the body and the
upstream data), and any pipeline fault is surfaced as an
internal-server-error envelope carrying the underlying message. -/
theorem boundary_errors :
    (∀ (m : String) (req : ArxivRequestData) (result : JS), m ≠ "POST" →
      Arxiv.handler m req result = .error .methodNotAllowed none)
    ∧ (∀ (m : String) (req : PubMedRequestData) (sr fr : JS), m ≠ "POST" →
      Pubmed.handler m req sr fr = .error .methodNotAllowed none)
    ∧ (∀ (req : ArxivRequestData) (result : JS) (msg : String),
      Arxiv.pipeline req result = .error msg →
      Arxiv.handler "POST" req result = .error .internalServerError (some msg))
    ∧ (∀ (req : PubMedRequestData) (sr fr : JS) (msg : String),
      Pubmed.pipeline req sr fr = .error msg →
      Pubmed.handler "POST" req sr fr = .error .internalServerError (some msg)) := by
  refine ⟨?_, ?_, ?_, ?_⟩
  · intro m req result hm
    unfold Arxiv.handler
    rw [if_pos hm]
  · intro m req sr fr hm
    unfold Pubmed.handler
    rw [if_pos hm]
  · intro req result msg hp
    unfold Arxiv.handler
    rw [if_neg (by simp), hp]
  · intro req sr fr msg hp
    unfold Pubmed.handler
    rw [if_neg (by simp), hp]

/-- C9 witness: a GET request is rejected up front, and a parse fault
deep in the pipeline surfaces as an internal-server-error envelope. -/
theorem boundary_errors_witness :
    Arxiv.handler "GET" { query := "q" } .undefined = .error .methodNotAllowed none
    ∧ Pubmed.handler "GET" { query := "q" } .undefined .undefined = .error .methodNotAllowed none
    ∧ Arxiv.handler "POST" { query := "q" } .undefined =
        .error .internalServerError (some "Cannot read properties of undefined (reading feed)")
    ∧ Pubmed.handler "POST" { query := "q" } .undefined .undefined =
        .error .internalServerError
          (some "Cannot read properties of undefined (reading eSearchResult)") :=
  ⟨boundary_errors.1 "GET" _ _ (by decide),
   boundary_errors.2.1 "GET" _ _ _ (by decide),
   boundary_errors.2.2.1 _ _ _ rfl,
   boundary_errors.2.2.2 _ _ _ _ rfl⟩

/-- C10: a parsed arXiv feed with no entry element at all yields a
successful envelope with an empty paper list and no cursor (for every
positive `maxResults`), with `totalResults` still read from the feed's
counter field. -/
theorem empty_feed_ok (req : ArxivRequestData) (hmax : 0 < req.maxResults)
    (fs : List (String × JS)) (hent : lookupField fs "entry" = .undefined)
    (cv w : JS) (hcnt : lookupField fs "opensearch:totalResults" = cv)
    (hidx : cv.idx 0 = .ok w) :
    Arxiv.pipeline req (.obj [("feed", .obj fs)]) =
      .ok (.response [("Cache-Control", "max-age=3600"), ("Content-Type", "application/json")]
        { nextCursor := none, papers := [], totalResults := jsParseInt w }) := by
  have hpapers : Arxiv.papers (.obj [("feed", .obj fs)]) = .ok [] := by
    unfold Arxiv.papers Arxiv.getEntries
    have h1 : (JS.obj [("feed", JS.obj fs)]).get "feed" = .ok (.obj fs) := rfl
    rw [h1, exceptBind_ok]
    have h2 : (JS.obj fs).get "entry" = .ok (lookupField fs "entry") := rfl
    rw [h2, hent]
    rfl
  have htot : Arxiv.totalResults (.obj [("feed", .obj fs)]) = .ok (jsParseInt w) := by
    unfold Arxiv.totalResults
    have h1 : (JS.obj [("feed", JS.obj fs)]).get "feed" = .ok (.obj fs) := rfl
    rw [h1, exceptBind_ok]
    have h2 : (JS.obj fs).get "opensearch:totalResults" =
        .ok (lookupField fs "opensearch:totalResults") := rfl
    rw [h2, hcnt, exceptBind_ok, hidx, exceptBind_ok]
    rfl
  unfold Arxiv.pipeline
  rw [hpapers, exceptBind_ok, htot, exceptBind_ok, exceptPure]
  have hne : ¬((List.length ([] : List ArxivPaper) : Int) = req.maxResults) := by
    simp only [List.length_nil, Nat.cast_zero]
    omega
  rw [if_neg hne]

/-- C10 witness: a concrete feed with only a counter field yields the
empty envelope with 42 total results. -/
theorem empty_feed_ok_witness :
    Arxiv.pipeline { query := "q" }
        (.obj [("feed", .obj [("opensearch:totalResults", .arr [.str "42"])])]) =
      .ok (.response [("Cache-Control", "max-age=3600"), ("Content-Type", "application/json")]
        { nextCursor := none, papers := [], totalResults := jsParseInt (.str "42") }) :=
  empty_feed_ok { query := "q" } (by decide)
    [("opensearch:totalResults", .arr [.str "42"])] rfl
    (.arr [.str "42"]) (.str "42") rfl rfl
